import Mathlib

/-!
Verification of `tornado/platform/caresresolver.py` (class `CaresResolver`):
a bridge between the c-ares asynchronous DNS engine (`pycares`) and the
tornado event loop.  The module's own logic — file-descriptor interest
tracking (`_sock_state_cb`, `_handle_events`), the `resolve` coroutine and
the `query` coroutine — is embedded below as pure Lean functions.  The
external collaborators (the `pycares` channel, the event loop, the `socket`
module constants and the `is_valid_ip` utility) are modelled as parameters
or as the constant values those modules expose.
-/

namespace Cares

/-- `socket.AF_UNSPEC` (value 0; the code compares `family` against it and
uses `0` as the default `family`, so this value is load-bearing). -/
def AF_UNSPEC : Nat := 0

/-- `socket.AF_INET` (Linux value 2; only distinctness from the other two
constants matters to the code). -/
def AF_INET : Nat := 2

/-- `socket.AF_INET6` (Linux value 10). -/
def AF_INET6 : Nat := 10

/-- `tornado.ioloop.IOLoop.READ` interest bit (0x001).  Modelled from the
spec: the event loop is an external collaborator exposing independently
settable READ/WRITE mask bits; the values are tornado's. -/
def IOLoop_READ : Nat := 1

/-- `tornado.ioloop.IOLoop.WRITE` interest bit (0x004).  Modelled from the
spec, as for `IOLoop_READ`. -/
def IOLoop_WRITE : Nat := 4

/-- `pycares.ARES_SOCKET_BAD`, the "no socket" sentinel passed to
`process_fd` for a descriptor that is not ready. -/
def ARES_SOCKET_BAD : Int := -1

/-- Python `c in s` for a single-character needle: character membership in
the string. -/
def strContainsChar (s : String) (c : Char) : Bool :=
  s.data.contains c

/-- The per-address family inference in `CaresResolver.resolve`:
`if '.' in address: AF_INET elif ':' in address: AF_INET6 else: AF_UNSPEC`.
Note the source tests `'.'` first. -/
def inferFamily (address : String) : Nat :=
  if strContainsChar address '.' then AF_INET
  else if strContainsChar address ':' then AF_INET6
  else AF_UNSPEC

/-- A raised Python exception: `assert` failures (`AssertionError`) are
distinguished from explicit `raise Exception(...)`. -/
inductive Err where
  | assertionError (msg : String)
  | exception (msg : String)
  deriving DecidableEq, Repr

/-- The message of `Exception('C-Ares returned error %s: %s while resolving
%s' % (error, pycares.errno.strerror(error), host))`. -/
def caresErrorMsg (strerror : Nat → String) (error : Nat) (host : String) : String :=
  "C-Ares returned error " ++ toString error ++ ": " ++ strerror error
    ++ " while resolving " ++ host

/-- The message of `Exception('Requested socket family %d but got %d' %
(family, address_family))`. -/
def familyMismatchMsg (family address_family : Nat) : String :=
  "Requested socket family " ++ toString family ++ " but got "
    ++ toString address_family

/-- What the completion callback of `channel.gethostbyname` delivers:
`result.addresses` and the error code (`None` on success, a non-zero code
on failure; `result` is only read when the error is absent). -/
structure HostReply where
  addresses : List String
  error : Option Nat

/-- The loop of `CaresResolver.resolve` over the address list: infer each
family, raise on a family mismatch, otherwise accumulate
`(address_family, (address, port))` in order. -/
def buildAddrinfo (family port : Nat) : List String → Except Err (List (Nat × String × Nat))
  | [] => .ok []
  | address :: rest =>
    let address_family := inferFamily address
    if family ≠ AF_UNSPEC ∧ family ≠ address_family then
      .error (.exception (familyMismatchMsg family address_family))
    else
      (buildAddrinfo family port rest).map (fun tl => (address_family, address, port) :: tl)

/-- `CaresResolver.resolve(host, port, family=0)`.  The engine is an oracle
`engine : host → family → HostReply` standing for `channel.gethostbyname`
plus its one-shot completion callback; `validIp` stands for the external
utility `tornado.netutil.is_valid_ip`; `strerror` for
`pycares.errno.strerror`.  The second component of the result records the
engine calls made (host, family), in order. -/
def resolve (validIp : String → Bool) (strerror : Nat → String)
    (engine : String → Nat → HostReply) (host : String) (port : Nat)
    (family : Nat := 0) :
    Except Err (List (Nat × String × Nat)) × List (String × Nat) :=
  if validIp host then
    (buildAddrinfo family port [host], [])
  else
    let reply := engine host family
    match reply.error with
    | some error =>
      (.error (.exception (caresErrorMsg strerror error host)), [(host, family)])
    | none =>
      (buildAddrinfo family port reply.addresses, [(host, family)])

/-- Python `str.upper()` restricted to the ASCII range (the record-type
names in `RTYPES` are ASCII, where `Char.toUpper` agrees with Python). -/
def pyUpper (s : String) : String :=
  String.mk (s.data.map Char.toUpper)

/-- `CaresResolver.RTYPES`: record-type name → `pycares.QUERY_TYPE_*`
numeric code (the standard DNS RR type numbers pycares uses). -/
def RTYPES : List (String × Nat) :=
  [("A", 1), ("AAAA", 28), ("CNAME", 5), ("MX", 15), ("NAPTR", 35),
   ("NS", 2), ("PTR", 12), ("SOA", 6), ("SRV", 33), ("TXT", 16)]

/-- `record_type.upper() in self.RTYPES` / `self.RTYPES[record_type.upper()]`
combined: the numeric query type when the (upper-cased) record type is a
key of `RTYPES`, `none` otherwise. -/
def rtypesLookup (record_type : String) : Option Nat :=
  (RTYPES.find? (fun p => p.1 = pyUpper record_type)).map (fun p => p.2)

/-- What the completion callback of `channel.query` delivers: an
engine-defined result object (opaque, type `ρ`) and the error code. -/
structure QueryReply (ρ : Type) where
  result : ρ
  error : Option Nat

/-- `CaresResolver.query(hostname, record_type)`.  The engine oracle
`engine : hostname → query_type → QueryReply ρ` stands for `channel.query`
plus its completion callback.  The second component records the engine
calls made (hostname, numeric query type), in order. -/
def query {ρ : Type} (strerror : Nat → String)
    (engine : String → Nat → QueryReply ρ) (hostname record_type : String) :
    Except Err ρ × List (String × Nat) :=
  match rtypesLookup record_type with
  | none => (.error (.assertionError "Incorrect record type"), [])
  | some query_type =>
    let reply := engine hostname query_type
    match reply.error with
    | some error =>
      (.error (.exception (caresErrorMsg strerror error hostname)), [(hostname, query_type)])
    | none => (.ok reply.result, [(hostname, query_type)])

/-- Python-dict lookup on the `self.fds` association list. -/
def dictLookup : List (Nat × Nat) → Nat → Option Nat
  | [], _ => none
  | (k, v) :: t, fd => if k = fd then some v else dictLookup t fd

/-- Python-dict assignment `d[k] = v`: replace in place if present,
append otherwise. -/
def dictSet : List (Nat × Nat) → Nat → Nat → List (Nat × Nat)
  | [], fd, v => [(fd, v)]
  | (k, v0) :: t, fd, v => if k = fd then (fd, v) :: t else (k, v0) :: dictSet t fd v

/-- Python-dict deletion `del d[k]` (the caller has checked presence). -/
def dictDel : List (Nat × Nat) → Nat → List (Nat × Nat)
  | [], _ => []
  | (k, v) :: t, fd => if k = fd then dictDel t fd else (k, v) :: dictDel t fd

/-- An operation performed on the event loop by the descriptor bridge. -/
inductive LoopOp where
  | removeHandler (fd : Nat)
  | updateHandler (fd state : Nat)
  | addHandler (fd state : Nat)
  deriving DecidableEq, Repr

/-- The interest mask computed at the top of `_sock_state_cb`:
`(IOLoop.READ if readable else 0) | (IOLoop.WRITE if writable else 0)`. -/
def maskOf (readable writable : Bool) : Nat :=
  (if readable then IOLoop_READ else 0) ||| (if writable then IOLoop_WRITE else 0)

/-- `CaresResolver._sock_state_cb(fd, readable, writable)` acting on the
`self.fds` table.  When the mask is zero and `fd` is untracked, the
`del self.fds[fd]` raises `KeyError` (the event loop's `remove_handler`
also fails for an unknown fd): the call fails rather than being ignored. -/
def sock_state_cb (fds : List (Nat × Nat)) (fd : Nat) (readable writable : Bool) :
    Except String (List (Nat × Nat) × List LoopOp) :=
  if maskOf readable writable = 0 then
    match dictLookup fds fd with
    | none => .error "KeyError"
    | some _ => .ok (dictDel fds fd, [.removeHandler fd])
  else if (dictLookup fds fd).isSome then
    .ok (dictSet fds fd (maskOf readable writable),
         [.updateHandler fd (maskOf readable writable)])
  else
    .ok (dictSet fds fd (maskOf readable writable),
         [.addHandler fd (maskOf readable writable)])

/-- A sequence of socket-state-change callbacks applied in order; the
whole run fails as soon as one callback fails. -/
def runSockStateSeq (fds : List (Nat × Nat)) :
    List (Nat × Bool × Bool) → Except String (List (Nat × Nat))
  | [] => .ok fds
  | (fd, r, w) :: rest =>
    match sock_state_cb fds fd r w with
    | .error e => .error e
    | .ok (fds1, _) => runSockStateSeq fds1 rest

/-- The interest mask announced by the last event of `evs` that concerns
`fd`, if any event does. -/
def lastMask : List (Nat × Bool × Bool) → Nat → Option Nat
  | [], _ => none
  | (f, r, w) :: rest, fd =>
    match lastMask rest fd with
    | some m => some m
    | none => if f = fd then some (maskOf r w) else none

/-- `CaresResolver._handle_events(fd, events)`: split `events` into a
ready-to-read and a ready-to-write descriptor (the fd or the
`ARES_SOCKET_BAD` sentinel) and hand both to `channel.process_fd`.  The
result is the list of `process_fd` calls made, as (read_fd, write_fd). -/
def handle_events (fd : Nat) (events : Nat) : List (Int × Int) :=
  let read_fd : Int := if events &&& IOLoop_READ ≠ 0 then (fd : Int) else ARES_SOCKET_BAD
  let write_fd : Int := if events &&& IOLoop_WRITE ≠ 0 then (fd : Int) else ARES_SOCKET_BAD
  [(read_fd, write_fd)]

end Cares

namespace Cares

theorem dictLookup_dictSet : ∀ (d : List (Nat × Nat)) (k v fd : Nat),
    dictLookup (dictSet d k v) fd = if k = fd then some v else dictLookup d fd
  | [], k, v, fd => by simp [dictSet, dictLookup]
  | (k0, v0) :: t, k, v, fd => by
    by_cases h1 : k0 = k
    · subst h1
      by_cases h2 : k0 = fd <;> simp [dictSet, dictLookup, h2]
    · by_cases h2 : k0 = fd
      · subst h2
        have hk : ¬(k = k0) := fun h => h1 h.symm
        simp [dictSet, h1, dictLookup, hk]
      · simp [dictSet, h1, dictLookup, h2, dictLookup_dictSet t k v fd]

theorem dictLookup_dictDel : ∀ (d : List (Nat × Nat)) (k fd : Nat),
    dictLookup (dictDel d k) fd = if k = fd then none else dictLookup d fd
  | [], k, fd => by simp [dictDel, dictLookup]
  | (k0, v0) :: t, k, fd => by
    have ih := dictLookup_dictDel t k fd
    by_cases h1 : k0 = k
    · subst h1
      by_cases h2 : k0 = fd
      · subst h2
        simp [dictDel, dictLookup, ih]
      · simp [dictDel, dictLookup, h2, ih]
    · by_cases h2 : k0 = fd
      · subst h2
        have hk : ¬(k = k0) := fun h => h1 h.symm
        simp [dictDel, h1, dictLookup, hk]
      · simp [dictDel, h1, dictLookup, h2, ih]

theorem sock_state_cb_lookup (fds : List (Nat × Nat)) (f : Nat) (r w : Bool)
    (fds1 : List (Nat × Nat)) (ops : List LoopOp)
    (h : sock_state_cb fds f r w = .ok (fds1, ops)) (fd : Nat) :
    dictLookup fds1 fd =
      if f = fd then (if maskOf r w = 0 then none else some (maskOf r w))
      else dictLookup fds fd := by
  unfold sock_state_cb at h
  by_cases h0 : maskOf r w = 0
  · rw [if_pos h0] at h
    cases hl : dictLookup fds f with
    | none => rw [hl] at h; cases h
    | some m =>
      rw [hl] at h
      cases h
      rw [dictLookup_dictDel]
      by_cases h2 : f = fd <;> simp [h0, h2]
  · rw [if_neg h0] at h
    by_cases hl : (dictLookup fds f).isSome <;>
      [rw [if_pos hl] at h; rw [if_neg hl] at h] <;>
      cases h <;> rw [dictLookup_dictSet] <;>
      by_cases h2 : f = fd <;> simp [h0, h2]

theorem lastMask_cons (f : Nat) (r w : Bool) (rest : List (Nat × Bool × Bool)) (fd : Nat) :
    lastMask ((f, r, w) :: rest) fd =
      match lastMask rest fd with
      | some m => some m
      | none => if f = fd then some (maskOf r w) else none := rfl

theorem runSockStateSeq_lookup : ∀ (evs : List (Nat × Bool × Bool)) (fds s : List (Nat × Nat)),
    runSockStateSeq fds evs = .ok s → ∀ fd : Nat,
    dictLookup s fd =
      match lastMask evs fd with
      | some m => if m = 0 then none else some m
      | none => dictLookup fds fd
  | [], fds, s, h, fd => by
    unfold runSockStateSeq at h
    cases h
    simp [lastMask]
  | (f, r, w) :: rest, fds, s, h, fd => by
    unfold runSockStateSeq at h
    cases hc : sock_state_cb fds f r w with
    | error e => rw [hc] at h; cases h
    | ok p =>
      obtain ⟨fds1, ops⟩ := p
      rw [hc] at h
      have ih := runSockStateSeq_lookup rest fds1 s h fd
      have hstep := sock_state_cb_lookup fds f r w fds1 ops hc fd
      rw [ih, lastMask_cons]
      cases hlm : lastMask rest fd with
      | some m => simp [hlm]
      | none =>
        by_cases h2 : f = fd <;> simp [hlm, h2, hstep]

end Cares

namespace Cares

/-- C6: after any successful sequence of socket-state-change callbacks
starting from the empty tracking table, an fd has an entry in `self.fds`
iff the last reported interest mask for that fd was non-zero; every stored
entry has at least one interest bit set (its stored mask is the last
reported, non-zero one).  Removal happens exactly at the call whose mask
is zero, which is the content of the iff. -/
theorem claim_C6_tracking_invariant (evs : List (Nat × Bool × Bool)) (s : List (Nat × Nat))
    (h : runSockStateSeq [] evs = .ok s) (fd : Nat) :
    ((dictLookup s fd).isSome ↔ ∃ m, lastMask evs fd = some m ∧ m ≠ 0) ∧
    (∀ m, dictLookup s fd = some m → m ≠ 0 ∧ lastMask evs fd = some m) := by
  have key := runSockStateSeq_lookup evs [] s h fd
  cases hlm : lastMask evs fd with
  | none =>
    rw [hlm] at key
    simp only [dictLookup] at key
    rw [key]
    simp
  | some m =>
    rw [hlm] at key
    by_cases hm : m = 0
    · subst hm
      simp at key
      rw [key]
      simp
    · simp [hm] at key
      rw [key]
      simp [hm]

/-- Witness for C6 at the concrete callback sequence
(3, r) then (3, none) then (5, w), which ends in the table [(5, 4)]. -/
theorem claim_C6_tracking_invariant_witness :
    ((dictLookup [(5, 4)] 5).isSome ↔
      ∃ m, lastMask [(3, true, false), (3, false, false), (5, false, true)] 5 = some m ∧ m ≠ 0) ∧
    (∀ m, dictLookup [(5, 4)] 5 = some m →
      m ≠ 0 ∧ lastMask [(3, true, false), (3, false, false), (5, false, true)] 5 = some m) :=
  claim_C6_tracking_invariant [(3, true, false), (3, false, false), (5, false, true)]
    [(5, 4)] rfl 5

/-- C7: a socket-state-change callback with both flags false (mask zero)
for an fd that is not in the tracking table fails fatally (the `del
self.fds[fd]` raises `KeyError`) instead of being ignored. -/
theorem claim_C7_zero_mask_untracked_fatal (fds : List (Nat × Nat)) (fd : Nat)
    (h : dictLookup fds fd = none) :
    sock_state_cb fds fd false false = .error "KeyError" := by
  simp [sock_state_cb, maskOf, h]

/-- Witness for C7: fd 3 is not tracked in the table [(7, 1)]. -/
theorem claim_C7_zero_mask_untracked_fatal_witness :
    sock_state_cb [(7, 1)] 3 false false = .error "KeyError" :=
  claim_C7_zero_mask_untracked_fatal [(7, 1)] 3 rfl

theorem and_two_pow_ne_zero (n i : Nat) : (n &&& 2 ^ i ≠ 0) ↔ n.testBit i := by
  rw [Nat.and_two_pow]
  cases h : n.testBit i <;> simp [h]

/-- C8: `_handle_events` makes exactly one `process_fd` call, passing the
fd as the read descriptor iff the READ bit (bit 0) is set in `events` and
the `ARES_SOCKET_BAD` sentinel otherwise, and the fd as the write
descriptor iff the WRITE bit (bit 2) is set and the sentinel otherwise. -/
theorem claim_C8_dispatch_split (fd events : Nat) :
    handle_events fd events =
      [((if events.testBit 0 then (fd : Int) else ARES_SOCKET_BAD),
        (if events.testBit 2 then (fd : Int) else ARES_SOCKET_BAD))] ∧
    (handle_events fd events).length = 1 := by
  refine ⟨?_, rfl⟩
  have h1 : (events &&& IOLoop_READ ≠ 0) ↔ events.testBit 0 := by
    have h := and_two_pow_ne_zero events 0
    rw [IOLoop_READ]
    rwa [pow_zero] at h
  have h2 : (events &&& IOLoop_WRITE ≠ 0) ↔ events.testBit 2 := by
    have h := and_two_pow_ne_zero events 2
    rw [IOLoop_WRITE]
    norm_num at h
    exact h
  by_cases hb0 : events.testBit 0 <;> by_cases hb2 : events.testBit 2 <;>
    simp [handle_events, h1, h2, hb0, hb2]

end Cares

namespace Cares

theorem buildAddrinfo_ok (family port : Nat) : ∀ (addrs : List String),
    (family = AF_UNSPEC ∨ ∀ a ∈ addrs, inferFamily a = family) →
    buildAddrinfo family port addrs = .ok (addrs.map (fun a => (inferFamily a, a, port)))
  | [], _ => by simp [buildAddrinfo]
  | address :: rest, h => by
    have hnot : ¬(family ≠ AF_UNSPEC ∧ family ≠ inferFamily address) := by
      rcases h with h | h
      · exact fun hc => hc.1 h
      · exact fun hc => hc.2 (h address (by simp)).symm
    have hrest : family = AF_UNSPEC ∨ ∀ a ∈ rest, inferFamily a = family := by
      rcases h with h | h
      · exact .inl h
      · exact .inr fun a ha => h a (by simp [ha])
    simp [buildAddrinfo, Except.map, hnot, buildAddrinfo_ok family port rest hrest]

theorem buildAddrinfo_mismatch (family port : Nat) (hfam : family ≠ AF_UNSPEC) :
    ∀ (addrs : List String), (∃ a ∈ addrs, inferFamily a ≠ family) →
    ∃ a ∈ addrs, inferFamily a ≠ family ∧
      buildAddrinfo family port addrs =
        .error (.exception (familyMismatchMsg family (inferFamily a)))
  | [], h => by simp at h
  | address :: rest, h => by
    by_cases hm : inferFamily address = family
    · have hrest : ∃ a ∈ rest, inferFamily a ≠ family := by
        rcases h with ⟨a, ha, hne⟩
        rcases List.mem_cons.mp ha with rfl | ha2
        · exact absurd hm hne
        · exact ⟨a, ha2, hne⟩
      obtain ⟨a, ha, hne, heq⟩ := buildAddrinfo_mismatch family port hfam rest hrest
      refine ⟨a, by simp [ha], hne, ?_⟩
      have hcond : ¬(family ≠ AF_UNSPEC ∧ family ≠ inferFamily address) :=
        fun hc => hc.2 hm.symm
      simp [buildAddrinfo, Except.map, hcond, heq]
    · refine ⟨address, by simp, hm, ?_⟩
      have hcond : family ≠ AF_UNSPEC ∧ family ≠ inferFamily address :=
        ⟨hfam, fun he => hm he.symm⟩
      simp [buildAddrinfo, hcond]

/-- C1: when the engine reply succeeds but contains an address whose
inferred family differs from the concrete requested family, `resolve`
raises the family-mismatch exception for the whole call: no address list
is returned, and mismatching addresses are not filtered out. -/
theorem claim_C1_family_mismatch_fails (validIp : String → Bool) (strerror : Nat → String)
    (engine : String → Nat → HostReply) (host : String) (port family : Nat)
    (hip : validIp host = false) (hfam : family ≠ AF_UNSPEC)
    (herr : (engine host family).error = none)
    (hmm : ∃ a ∈ (engine host family).addresses, inferFamily a ≠ family) :
    ∃ a ∈ (engine host family).addresses, inferFamily a ≠ family ∧
      resolve validIp strerror engine host port family =
        (.error (.exception (familyMismatchMsg family (inferFamily a))), [(host, family)]) := by
  obtain ⟨a, ha, hne, heq⟩ :=
    buildAddrinfo_mismatch family port hfam (engine host family).addresses hmm
  exact ⟨a, ha, hne, by simp [resolve, hip, herr, heq]⟩

/-- Witness for C1: requesting IPv4 while the engine returns a matching
IPv4 address followed by a mismatching IPv6 address fails the call. -/
theorem claim_C1_family_mismatch_fails_witness :
    ∃ a ∈ ["127.0.0.1", "::1"], inferFamily a ≠ AF_INET ∧
      resolve (fun _ => false) (fun _ => "") (fun _ _ => ⟨["127.0.0.1", "::1"], none⟩)
          "mixed.example" 80 AF_INET =
        (.error (.exception (familyMismatchMsg AF_INET (inferFamily a))),
         [("mixed.example", AF_INET)]) :=
  claim_C1_family_mismatch_fails (fun _ => false) (fun _ => "")
    (fun _ _ => ⟨["127.0.0.1", "::1"], none⟩) "mixed.example" 80 AF_INET
    rfl (by decide) rfl (by decide)

/-- C3: for a host accepted by the IP-literal check, `resolve` (with the
default unspecified family) makes no engine call and returns the single
tuple echoing the literal with the requested port. -/
theorem claim_C3_ip_literal_no_engine_call (validIp : String → Bool) (strerror : Nat → String)
    (engine : String → Nat → HostReply) (host : String) (port : Nat)
    (h : validIp host = true) :
    resolve validIp strerror engine host port AF_UNSPEC =
      (.ok [(inferFamily host, host, port)], []) := by
  simp [resolve, h, buildAddrinfo_ok AF_UNSPEC port [host] (.inl rfl)]

/-- Witness for C3: `resolve("127.0.0.1", 80)` gives
`[(AF_INET, "127.0.0.1", 80)]` with no engine call. -/
theorem claim_C3_ip_literal_no_engine_call_witness :
    resolve (fun h => h == "127.0.0.1") (fun _ => "") (fun _ _ => ⟨[], none⟩)
        "127.0.0.1" 80 AF_UNSPEC =
      (.ok [(AF_INET, "127.0.0.1", 80)], []) := by
  rw [claim_C3_ip_literal_no_engine_call _ _ _ _ _ (by decide)]
  rfl

/-- C9: on a successful engine reply with no family mismatch, `resolve`
returns one `(inferred family, address, port)` tuple per returned address,
in the engine's order, with the caller's port in every tuple. -/
theorem claim_C9_success_preserves_order (validIp : String → Bool) (strerror : Nat → String)
    (engine : String → Nat → HostReply) (host : String) (port family : Nat)
    (hip : validIp host = false) (herr : (engine host family).error = none)
    (hok : family = AF_UNSPEC ∨ ∀ a ∈ (engine host family).addresses, inferFamily a = family) :
    resolve validIp strerror engine host port family =
      (.ok ((engine host family).addresses.map (fun a => (inferFamily a, a, port))),
       [(host, family)]) := by
  simp [resolve, hip, herr,
    buildAddrinfo_ok family port (engine host family).addresses hok]

/-- Witness for C9: two IPv4 addresses under a requested IPv4 family come
back as two tuples in engine order, both carrying port 80. -/
theorem claim_C9_success_preserves_order_witness :
    resolve (fun _ => false) (fun _ => "") (fun _ _ => ⟨["1.2.3.4", "5.6.7.8"], none⟩)
        "pair.example" 80 AF_INET =
      (.ok [(AF_INET, "1.2.3.4", 80), (AF_INET, "5.6.7.8", 80)],
       [("pair.example", AF_INET)]) := by
  rw [claim_C9_success_preserves_order _ _ _ _ _ _ rfl rfl (.inr (by decide))]
  rfl

/-- C10: the family-mismatch check also applies on the IP-literal shortcut
path: a literal whose inferred family differs from the concrete requested
family makes `resolve` fail (still without any engine call). -/
theorem claim_C10_literal_family_mismatch (validIp : String → Bool) (strerror : Nat → String)
    (engine : String → Nat → HostReply) (host : String) (port family : Nat)
    (hip : validIp host = true) (h1 : family ≠ AF_UNSPEC)
    (h2 : family ≠ inferFamily host) :
    resolve validIp strerror engine host port family =
      (.error (.exception (familyMismatchMsg family (inferFamily host))), []) := by
  simp [resolve, hip, buildAddrinfo, h1, h2]

/-- Witness for C10: `resolve("127.0.0.1", 80, family=AF_INET6)` fails
with the family-mismatch message instead of echoing the literal. -/
theorem claim_C10_literal_family_mismatch_witness :
    resolve (fun h => h == "127.0.0.1") (fun _ => "") (fun _ _ => ⟨[], none⟩)
        "127.0.0.1" 80 AF_INET6 =
      (.error (.exception "Requested socket family 10 but got 2"), []) := by
  rw [claim_C10_literal_family_mismatch _ _ _ _ _ _ (by decide) (by decide) (by decide)]
  rfl

/-- C5: when the completion callback reports a non-zero error code, both
`resolve` and `query` raise an exception whose message embeds the numeric
code, the engine's textual description of it (`strerror`), and the
hostname; no result is returned. -/
theorem claim_C5_engine_error {ρ : Type} (validIp : String → Bool) (strerror : Nat → String)
    (engine : String → Nat → HostReply) (qengine : String → Nat → QueryReply ρ)
    (host hostname record_type : String) (port family e1 e2 qt : Nat)
    (hip : validIp host = false) (he : (engine host family).error = some e1)
    (hrt : rtypesLookup record_type = some qt)
    (hqe : (qengine hostname qt).error = some e2) :
    resolve validIp strerror engine host port family =
      (.error (.exception ("C-Ares returned error " ++ toString e1 ++ ": " ++ strerror e1
        ++ " while resolving " ++ host)), [(host, family)]) ∧
    query strerror qengine hostname record_type =
      (.error (.exception ("C-Ares returned error " ++ toString e2 ++ ": " ++ strerror e2
        ++ " while resolving " ++ hostname)), [(hostname, qt)]) := by
  constructor
  · simp [resolve, hip, he, caresErrorMsg]
  · simp [query, hrt, hqe, caresErrorMsg]

/-- Witness for C5 with error code 4 described as "Domain name not found". -/
theorem claim_C5_engine_error_witness :
    resolve (fun _ => false) (fun n => if n = 4 then "Domain name not found" else "")
        (fun _ _ => ⟨[], some 4⟩) "nx.example" 80 AF_INET =
      (.error (.exception
        "C-Ares returned error 4: Domain name not found while resolving nx.example"),
       [("nx.example", AF_INET)]) ∧
    query (fun n => if n = 4 then "Domain name not found" else "")
        (fun _ _ => QueryReply.mk ([] : List String) (some 4)) "nx.example" "TXT" =
      (.error (.exception
        "C-Ares returned error 4: Domain name not found while resolving nx.example"),
       [("nx.example", 16)]) := by
  have h := claim_C5_engine_error (ρ := List String) (fun _ => false)
    (fun n => if n = 4 then "Domain name not found" else "")
    (fun _ _ => ⟨[], some 4⟩) (fun _ _ => QueryReply.mk ([] : List String) (some 4))
    "nx.example" "nx.example" "TXT" 80 AF_INET 4 4 16 rfl rfl (by decide) rfl
  refine ⟨?_, ?_⟩
  · rw [h.1]
    rfl
  · rw [h.2]
    rfl

end Cares

namespace Cares

/-- Counterexample to C2: `"::ffff:1.2.3.4"` contains both `':'` and
`'.'`, but because the source tests `'.'` first, the inferred family is
`AF_INET`, not `AF_INET6` as the claim states; `resolve` accordingly
returns it as an IPv4 tuple. -/
theorem claim_C2_counterexample :
    strContainsChar "::ffff:1.2.3.4" ':' = true ∧
    strContainsChar "::ffff:1.2.3.4" '.' = true ∧
    inferFamily "::ffff:1.2.3.4" = AF_INET ∧
    inferFamily "::ffff:1.2.3.4" ≠ AF_INET6 ∧
    resolve (fun _ => false) (fun _ => "") (fun _ _ => ⟨["::ffff:1.2.3.4"], none⟩)
        "h.example" 80 AF_UNSPEC =
      (.ok [(AF_INET, "::ffff:1.2.3.4", 80)], [("h.example", AF_UNSPEC)]) :=
  ⟨by decide, by decide, by decide, by decide, by rfl⟩

/-- C2 as amended: the inferred family is `AF_INET` whenever the address
contains `'.'` (this branch wins even when `':'` is also present),
`AF_INET6` when it contains `':'` but no `'.'`, and `AF_UNSPEC` when it
contains neither. -/
theorem claim_C2_amended_inference (a : String) :
    (strContainsChar a '.' = true → inferFamily a = AF_INET) ∧
    (strContainsChar a '.' = false → strContainsChar a ':' = true →
      inferFamily a = AF_INET6) ∧
    (strContainsChar a '.' = false → strContainsChar a ':' = false →
      inferFamily a = AF_UNSPEC) := by
  refine ⟨fun h => ?_, fun h1 h2 => ?_, fun h1 h2 => ?_⟩ <;> simp [inferFamily, *]

/-- Witness for the amended C2 at one input of each shape. -/
theorem claim_C2_amended_inference_witness :
    inferFamily "1.2.3.4" = AF_INET ∧ inferFamily "::1" = AF_INET6 ∧
    inferFamily "localhost" = AF_UNSPEC :=
  ⟨(claim_C2_amended_inference "1.2.3.4").1 (by decide),
   (claim_C2_amended_inference "::1").2.1 (by decide) (by decide),
   (claim_C2_amended_inference "localhost").2.2 (by decide) (by decide)⟩

theorem rtypesLookup_isSome_iff (rt : String) :
    (rtypesLookup rt).isSome ↔ pyUpper rt ∈ RTYPES.map Prod.fst := by
  unfold rtypesLookup
  constructor
  · intro h
    obtain ⟨q, hq⟩ := Option.isSome_iff_exists.mp h
    obtain ⟨p, hp, _⟩ := Option.map_eq_some'.mp hq
    have hmem := List.mem_of_find?_eq_some hp
    have hpred := List.find?_some hp
    simp at hpred
    exact List.mem_map.mpr ⟨p, hmem, hpred⟩
  · intro h
    obtain ⟨p, hmem, hfst⟩ := List.mem_map.mp h
    cases hf : RTYPES.find? (fun q => decide (q.1 = pyUpper rt)) with
    | some q => simp [hf]
    | none =>
      exfalso
      have := List.find?_eq_none.mp hf p hmem
      simp [hfst] at this

/-- C4: `query` validates the record type by upper-casing it against the
fixed key set {A, AAAA, CNAME, MX, NAPTR, NS, PTR, SOA, SRV, TXT} (whose
names are their own upper-casings, so every casing variant of a supported
name passes); a passing record type leads to exactly one engine call,
while a failing one is rejected with the `assert` message before any
engine call. -/
theorem claim_C4_record_type_validation {ρ : Type} (strerror : Nat → String)
    (engine : String → Nat → QueryReply ρ) (hostname record_type : String) :
    RTYPES.map Prod.fst =
      ["A", "AAAA", "CNAME", "MX", "NAPTR", "NS", "PTR", "SOA", "SRV", "TXT"] ∧
    (∀ name ∈ RTYPES.map Prod.fst, pyUpper name = name) ∧
    (pyUpper record_type ∈ RTYPES.map Prod.fst →
      (query strerror engine hostname record_type).2.length = 1) ∧
    (pyUpper record_type ∉ RTYPES.map Prod.fst →
      query strerror engine hostname record_type =
        (.error (.assertionError "Incorrect record type"), [])) := by
  refine ⟨by decide, by decide, fun hmem => ?_, fun hmem => ?_⟩
  · have hs := (rtypesLookup_isSome_iff record_type).mpr hmem
    obtain ⟨qt, hqt⟩ := Option.isSome_iff_exists.mp hs
    cases hre : (engine hostname qt).error <;> simp [query, hqt, hre]
  · cases hn : rtypesLookup record_type with
    | none => simp [query, hn]
    | some qt =>
      exact absurd ((rtypesLookup_isSome_iff record_type).mp (by simp [hn])) hmem

/-- Witness for C4: the casing variant "mx" passes validation and makes
one engine call; "zz" is rejected before any engine call. -/
theorem claim_C4_record_type_validation_witness :
    (query (fun _ => "") (fun _ _ => QueryReply.mk ([] : List String) none)
      "example.com" "mx").2.length = 1 ∧
    query (fun _ => "") (fun _ _ => QueryReply.mk ([] : List String) none)
      "example.com" "zz" =
      (.error (.assertionError "Incorrect record type"), []) :=
  ⟨(claim_C4_record_type_validation (fun _ => "")
      (fun _ _ => QueryReply.mk ([] : List String) none) "example.com" "mx").2.2.1
      (by decide),
   (claim_C4_record_type_validation (fun _ => "")
      (fun _ _ => QueryReply.mk ([] : List String) none) "example.com" "zz").2.2.2
      (by decide)⟩

end Cares
